import Mathlib

/-!
# The Windows system-lookup table of `syslookup.c`

A shallow embedding of `substratevm/src/com.oracle.svm.native.libchelper/src/syslookup.c`
(the part under `#ifdef _WIN64`): the static table `_syslookup_funcs`, the macro
`N_SYSLOOKUP_FUNCS` and the accessor `__svm_get_syslookup_func`.

Modelling choices.
* A `void*` is either `NULL` or the address of one of the C library functions
  the table names. Addresses of functions are never null, and two different
  functions have different addresses, which is what the constructor `Ptr.addr`
  expresses.
* `int32_t` arguments are mathematical integers in the range checked by
  `isInt32`; `size_t` is 64 bits wide (the file is only compiled under
  `_WIN64`), and the conversion of a signed value to `size_t` is reduction
  modulo `2 ^ 64`.
* An array read outside the array bounds is undefined behaviour in C; the
  embedding returns `none` for it, and `some p` for a call that returns `p`.
* Where calls are compared with one another, a call is a step on the process
  memory `Mem`: it receives the memory, with the array contents and everything
  else in it, and returns its result with the memory it leaves. The array is
  `static` and the accessor hands out element values, not pointers into the
  array, so no other translation unit can name or write it.
-/

namespace Syslookup

/-- The C library functions whose addresses are taken in `syslookup.c`, in
source order (`stdio.h` first, then `time.h`). -/
inductive Sym
  | fprintf
  | fprintf_s
  | fscanf
  | fscanf_s
  | fwprintf
  | fwprintf_s
  | fwscanf
  | fwscanf_s
  | printf
  | printf_s
  | scanf
  | scanf_s
  | snprintf
  | sprintf
  | sprintf_s
  | sscanf
  | sscanf_s
  | swprintf
  | swprintf_s
  | swscanf
  | swscanf_s
  | vfprintf
  | vfprintf_s
  | vfscanf
  | vfscanf_s
  | vfwprintf
  | vfwprintf_s
  | vfwscanf
  | vfwscanf_s
  | vprintf
  | vprintf_s
  | vscanf
  | vscanf_s
  | vsnprintf
  | vsnprintf_s
  | vsprintf
  | vsprintf_s
  | vsscanf
  | vsscanf_s
  | vswprintf
  | vswprintf_s
  | vswscanf
  | vswscanf_s
  | vwprintf
  | vwprintf_s
  | vwscanf
  | vwscanf_s
  | wprintf
  | wprintf_s
  | wscanf
  | wscanf_s
  | gmtime
  deriving DecidableEq, Repr

/-- A value of type `void*` as far as this file can produce one: the null
pointer, or the address of a library function. -/
inductive Ptr
  | NULL
  | addr (f : Sym)
  deriving DecidableEq, Repr

/-- The C expression `&f` for a function `f`. -/
def addr_of (f : Sym) : Ptr := Ptr.addr f

/-- The static array `_syslookup_funcs` (lines 33 to 89), entry for entry. -/
def _syslookup_funcs : List Ptr := [
  -- stdio.h
  addr_of Sym.fprintf,
  addr_of Sym.fprintf_s,
  addr_of Sym.fscanf,
  addr_of Sym.fscanf_s,
  addr_of Sym.fwprintf,
  addr_of Sym.fwprintf_s,
  addr_of Sym.fwscanf,
  addr_of Sym.fwscanf_s,
  addr_of Sym.printf,
  addr_of Sym.printf_s,
  addr_of Sym.scanf,
  addr_of Sym.scanf_s,
  addr_of Sym.snprintf,
  addr_of Sym.sprintf,
  addr_of Sym.sprintf_s,
  addr_of Sym.sscanf,
  addr_of Sym.sscanf_s,
  addr_of Sym.swprintf,
  addr_of Sym.swprintf_s,
  addr_of Sym.swscanf,
  addr_of Sym.swscanf_s,
  addr_of Sym.vfprintf,
  addr_of Sym.vfprintf_s,
  addr_of Sym.vfscanf,
  addr_of Sym.vfscanf_s,
  addr_of Sym.vfwprintf,
  addr_of Sym.vfwprintf_s,
  addr_of Sym.vfwscanf,
  addr_of Sym.vfwscanf_s,
  addr_of Sym.vprintf,
  addr_of Sym.vprintf_s,
  addr_of Sym.vscanf,
  addr_of Sym.vscanf_s,
  addr_of Sym.vsnprintf,
  addr_of Sym.vsnprintf_s,
  addr_of Sym.vsprintf,
  addr_of Sym.vsprintf_s,
  addr_of Sym.vsscanf,
  addr_of Sym.vsscanf_s,
  addr_of Sym.vswprintf,
  addr_of Sym.vswprintf_s,
  addr_of Sym.vswscanf,
  addr_of Sym.vswscanf_s,
  addr_of Sym.vwprintf,
  addr_of Sym.vwprintf_s,
  addr_of Sym.vwscanf,
  addr_of Sym.vwscanf_s,
  addr_of Sym.wprintf,
  addr_of Sym.wprintf_s,
  addr_of Sym.wscanf,
  addr_of Sym.wscanf_s,

  -- time.h
  addr_of Sym.gmtime
]

/-- Width in bits of `size_t` under `_WIN64`. -/
def SIZE_BITS : Nat := 64

/-- The C value `sizeof(void*)` under `_WIN64`. -/
def sizeof_void_ptr : Nat := 8

/-- The C value `sizeof(_syslookup_funcs)`: the array's size in bytes, a `size_t`. -/
def sizeof_syslookup_funcs : Nat :=
  (sizeof_void_ptr * _syslookup_funcs.length) % 2 ^ SIZE_BITS

/-- The macro `N_SYSLOOKUP_FUNCS`, `(sizeof(_syslookup_funcs) / sizeof(void*))`,
an unsigned value of type `size_t`. -/
def N_SYSLOOKUP_FUNCS : Nat :=
  (sizeof_syslookup_funcs / sizeof_void_ptr) % 2 ^ SIZE_BITS

/-- The values an `int32_t` can hold. -/
def isInt32 (x : Int) : Prop := -2 ^ 31 ≤ x ∧ x < 2 ^ 31

instance (x : Int) : Decidable (isInt32 x) := by
  unfold isInt32
  exact inferInstance

/-- Conversion of a signed integer to `size_t` in a mixed comparison: the
value modulo `2 ^ 64`. -/
def to_size_t (x : Int) : Nat := (x % 2 ^ SIZE_BITS).toNat

/-- The array read `a[i]` with a signed index: `none` when the index is
outside the array (undefined behaviour in C), the element otherwise. -/
def array_read (a : List Ptr) (i : Int) : Option Ptr :=
  if i < 0 then none else a[i.toNat]?

/-- The accessor `__svm_get_syslookup_func` (lines 93 to 98). The result is
`some p` when the call returns the pointer `p`, and `none` when the array read
on line 97 is out of bounds. -/
def __svm_get_syslookup_func (i n_expected : Int) : Option Ptr :=
  if to_size_t n_expected ≠ N_SYSLOOKUP_FUNCS ∨ i < 0 ∨ to_size_t i ≥ N_SYSLOOKUP_FUNCS then
    some Ptr.NULL
  else
    array_read _syslookup_funcs i

/-- The memory a call runs in: the contents of the static array
`_syslookup_funcs`, and every other object of the process, by address. -/
structure Mem where
  syslookup_funcs : List Ptr
  other : Nat → Int

/-- Memory after static initialisation: the array holds its initialiser
(lines 33 to 89); the rest of the process memory is arbitrary. -/
def initial_mem (other : Nat → Int) : Mem :=
  { syslookup_funcs := _syslookup_funcs, other := other }

/-- The accessor of lines 93 to 98 as a step on memory: the result of the call
(`none` for an out-of-bounds read) together with the memory the call leaves.
The guard of line 94 compares the arguments with the constant
`N_SYSLOOKUP_FUNCS` and reads no memory; line 97 reads the array element; the
body contains no assignment, so the memory is handed back as it was found. -/
def __svm_get_syslookup_func_step (m : Mem) (i n_expected : Int) : Option Ptr × Mem :=
  if to_size_t n_expected ≠ N_SYSLOOKUP_FUNCS ∨ i < 0 ∨ to_size_t i ≥ N_SYSLOOKUP_FUNCS then
    (some Ptr.NULL, m)
  else
    (array_read m.syslookup_funcs i, m)

/-- The memory left by a sequence of calls of the accessor, each call given by
its arguments `(i, n_expected)`, made one after the other from the memory `m`. -/
def run_calls (m : Mem) : List (Int × Int) → Mem
  | [] => m
  | c :: cs => run_calls (__svm_get_syslookup_func_step m c.1 c.2).2 cs

/-! ## Facts about the table and the conversions -/

/-- The table has 52 entries. -/
theorem syslookup_funcs_length : _syslookup_funcs.length = 52 := by
  decide

/-- The macro `N_SYSLOOKUP_FUNCS` evaluates to the number of entries of the table. -/
theorem N_SYSLOOKUP_FUNCS_eq_length : N_SYSLOOKUP_FUNCS = _syslookup_funcs.length := by
  decide

/-- Converting a non-negative `int32_t` to `size_t` keeps its value. -/
theorem to_size_t_of_nonneg (x : Int) (h0 : 0 ≤ x) (hx : isInt32 x) :
    to_size_t x = x.toNat := by
  obtain ⟨_, hhi⟩ := hx
  have hhi2 : x < 2147483648 := by norm_num at hhi; exact hhi
  unfold to_size_t SIZE_BITS
  norm_num
  omega

/-- Converting a negative `int32_t` to `size_t` wraps it to at least `2 ^ 64 - 2 ^ 31`. -/
theorem to_size_t_of_neg (x : Int) (h0 : x < 0) (hx : isInt32 x) :
    18446744071562067968 ≤ to_size_t x := by
  obtain ⟨hlo, _⟩ := hx
  have hlo2 : -2147483648 ≤ x := by norm_num at hlo; exact hlo
  unfold to_size_t SIZE_BITS
  norm_num
  omega

/-- On `int32_t` arguments the guard of line 94, with its unsigned comparisons,
holds exactly when the count differs from the table length or the index is
outside the table. -/
theorem guard_iff (i n_expected : Int) (hi : isInt32 i) (hn : isInt32 n_expected) :
    (to_size_t n_expected ≠ N_SYSLOOKUP_FUNCS ∨ i < 0 ∨ to_size_t i ≥ N_SYSLOOKUP_FUNCS) ↔
      (n_expected ≠ (_syslookup_funcs.length : Int) ∨ i < 0 ∨
        i ≥ (_syslookup_funcs.length : Int)) := by
  rw [N_SYSLOOKUP_FUNCS_eq_length, syslookup_funcs_length]
  have hn_cases : n_expected < 0 ∨ 0 ≤ n_expected := by omega
  have hi_cases : i < 0 ∨ 0 ≤ i := by omega
  rcases hi_cases with hineg | hipos
  · simp [hineg]
  · have e1 := to_size_t_of_nonneg i hipos hi
    rcases hn_cases with hnneg | hnpos
    · have e2 := to_size_t_of_neg n_expected hnneg hn
      constructor
      · intro _; left; push_cast; omega
      · intro _; left; omega
    · have e2 := to_size_t_of_nonneg n_expected hnpos hn
      rw [e1, e2]
      push_cast
      omega

/-- When the guard of line 94 holds the accessor returns `NULL`. -/
theorem get_null_of_guard (i n_expected : Int)
    (h : to_size_t n_expected ≠ N_SYSLOOKUP_FUNCS ∨ i < 0 ∨ to_size_t i ≥ N_SYSLOOKUP_FUNCS) :
    __svm_get_syslookup_func i n_expected = some Ptr.NULL := by
  unfold __svm_get_syslookup_func
  rw [if_pos h]

/-- An in-range read of an array returns the element at that position. -/
theorem array_read_of_lt (a : List Ptr) (i : Int) (h0 : 0 ≤ i) (h : i.toNat < a.length) :
    array_read a i = some (a.get ⟨i.toNat, h⟩) := by
  unfold array_read
  rw [if_neg (by omega)]
  simp [List.getElem?_eq_getElem h]

/-- With the true length as count and an index inside the table, the accessor
returns the table entry at that index. -/
theorem get_of_valid (i : Int) (h0 : 0 ≤ i) (hlt : i < (_syslookup_funcs.length : Int)) :
    ∃ h : i.toNat < _syslookup_funcs.length,
      __svm_get_syslookup_func i (_syslookup_funcs.length : Int)
        = some (_syslookup_funcs.get ⟨i.toNat, h⟩) := by
  have hb : i.toNat < _syslookup_funcs.length := by omega
  refine ⟨hb, ?_⟩
  have hlen := syslookup_funcs_length
  have hi32 : isInt32 i := by
    unfold isInt32
    constructor
    · have : (0 : Int) ≤ 2 ^ 31 := by norm_num
      omega
    · have : (53 : Int) ≤ 2 ^ 31 := by norm_num
      omega
  have hn32 : isInt32 (_syslookup_funcs.length : Int) := by
    rw [hlen]; decide
  have hg : ¬ (to_size_t (_syslookup_funcs.length : Int) ≠ N_SYSLOOKUP_FUNCS ∨ i < 0 ∨
      to_size_t i ≥ N_SYSLOOKUP_FUNCS) := by
    rw [guard_iff i _ hi32 hn32]
    omega
  unfold __svm_get_syslookup_func
  rw [if_neg hg]
  exact array_read_of_lt _ i h0 hb

/-- No entry of the table is the null pointer. -/
theorem syslookup_funcs_nonnull : ∀ p ∈ _syslookup_funcs, p ≠ Ptr.NULL := by
  decide

/-- No entry occurs twice in the table. -/
theorem syslookup_funcs_nodup : _syslookup_funcs.Nodup := by
  decide

/-! ## The contract of the accessor -/

/-- C1: for `int32_t` arguments, the accessor returns `NULL` when the expected
count differs from the table's actual length, or the index is negative, or the
index is at least the table's actual length; in every other case it returns
exactly the entry stored at position `i` of `_syslookup_funcs`. -/
theorem get_syslookup_func_contract (i n_expected : Int)
    (hi : isInt32 i) (hn : isInt32 n_expected) :
    ((n_expected ≠ (_syslookup_funcs.length : Int) ∨ i < 0 ∨
        i ≥ (_syslookup_funcs.length : Int)) →
      __svm_get_syslookup_func i n_expected = some Ptr.NULL) ∧
    (¬ (n_expected ≠ (_syslookup_funcs.length : Int) ∨ i < 0 ∨
        i ≥ (_syslookup_funcs.length : Int)) →
      ∃ h : i.toNat < _syslookup_funcs.length,
        __svm_get_syslookup_func i n_expected = some (_syslookup_funcs.get ⟨i.toNat, h⟩)) := by
  constructor
  · intro h
    exact get_null_of_guard i n_expected ((guard_iff i n_expected hi hn).mpr h)
  · intro h
    have hn_eq : n_expected = (_syslookup_funcs.length : Int) := by
      by_contra hne
      exact h (Or.inl hne)
    have h0 : 0 ≤ i := by
      by_contra hneg
      exact h (Or.inr (Or.inl (by omega)))
    have hlt : i < (_syslookup_funcs.length : Int) := by
      by_contra hge
      exact h (Or.inr (Or.inr (by omega)))
    rw [hn_eq]
    exact get_of_valid i h0 hlt

/-- Witness for C1 at index 3 with count 52. -/
theorem get_syslookup_func_contract_witness :
    isInt32 3 ∧ isInt32 52 ∧
    (((52 : Int) ≠ (_syslookup_funcs.length : Int) ∨ (3 : Int) < 0 ∨
        (3 : Int) ≥ (_syslookup_funcs.length : Int)) →
      __svm_get_syslookup_func 3 52 = some Ptr.NULL) ∧
    (¬ ((52 : Int) ≠ (_syslookup_funcs.length : Int) ∨ (3 : Int) < 0 ∨
        (3 : Int) ≥ (_syslookup_funcs.length : Int)) →
      ∃ h : (3 : Int).toNat < _syslookup_funcs.length,
        __svm_get_syslookup_func 3 52
          = some (_syslookup_funcs.get ⟨(3 : Int).toNat, h⟩)) :=
  ⟨by decide, by decide, get_syslookup_func_contract 3 52 (by decide) (by decide)⟩

/-- C2: with `N` the table's true length, for every index `i` with
`0 ≤ i < N` the call `__svm_get_syslookup_func(i, N)` returns a non-null
address. -/
theorem valid_index_nonnull (i : Int) (h0 : 0 ≤ i)
    (hlt : i < (_syslookup_funcs.length : Int)) :
    ∃ p, __svm_get_syslookup_func i (_syslookup_funcs.length : Int) = some p ∧
      p ≠ Ptr.NULL := by
  obtain ⟨hb, hget⟩ := get_of_valid i h0 hlt
  exact ⟨_, hget, syslookup_funcs_nonnull _ (List.get_mem _ _ _)⟩

/-- Witness for C2 at index 7. -/
theorem valid_index_nonnull_witness :
    (0 : Int) ≤ 7 ∧ (7 : Int) < (_syslookup_funcs.length : Int) ∧
    ∃ p, __svm_get_syslookup_func 7 (_syslookup_funcs.length : Int) = some p ∧
      p ≠ Ptr.NULL :=
  ⟨by decide, by decide, valid_index_nonnull 7 (by decide) (by decide)⟩

/-- C3: with `N` the table's true length, the lookup is injective on valid
indices: two different indices in `[0, N)` return two different entries. -/
theorem valid_index_injective (i j : Int)
    (hi0 : 0 ≤ i) (hi : i < (_syslookup_funcs.length : Int))
    (hj0 : 0 ≤ j) (hj : j < (_syslookup_funcs.length : Int)) (hij : i ≠ j) :
    ∃ p q, __svm_get_syslookup_func i (_syslookup_funcs.length : Int) = some p ∧
      __svm_get_syslookup_func j (_syslookup_funcs.length : Int) = some q ∧ p ≠ q := by
  obtain ⟨hbi, hgi⟩ := get_of_valid i hi0 hi
  obtain ⟨hbj, hgj⟩ := get_of_valid j hj0 hj
  refine ⟨_, _, hgi, hgj, ?_⟩
  intro heq
  have hfin := (List.Nodup.get_inj_iff syslookup_funcs_nodup).mp heq
  have hnat : i.toNat = j.toNat := by
    simpa using congrArg Fin.val hfin
  omega

/-- Witness for C3 at the indices 0 and 1. -/
theorem valid_index_injective_witness :
    (0 : Int) ≤ 0 ∧ (0 : Int) < (_syslookup_funcs.length : Int) ∧
    (0 : Int) ≤ 1 ∧ (1 : Int) < (_syslookup_funcs.length : Int) ∧ (0 : Int) ≠ 1 ∧
    ∃ p q, __svm_get_syslookup_func 0 (_syslookup_funcs.length : Int) = some p ∧
      __svm_get_syslookup_func 1 (_syslookup_funcs.length : Int) = some q ∧ p ≠ q :=
  ⟨by decide, by decide, by decide, by decide, by decide,
    valid_index_injective 0 1 (by decide) (by decide) (by decide) (by decide) (by decide)⟩

/-- C4: for every `int32_t` expected count different from the table's true
length and every `int32_t` index, valid for the table or not, the accessor
returns `NULL`. -/
theorem count_mismatch_null (i expected_count : Int)
    (hi : isInt32 i) (hn : isInt32 expected_count)
    (hne : expected_count ≠ (_syslookup_funcs.length : Int)) :
    __svm_get_syslookup_func i expected_count = some Ptr.NULL :=
  get_null_of_guard i expected_count ((guard_iff i expected_count hi hn).mpr (Or.inl hne))

/-- Witness for C4 at the valid index 0 with the count 51. -/
theorem count_mismatch_null_witness :
    isInt32 0 ∧ isInt32 51 ∧ (51 : Int) ≠ (_syslookup_funcs.length : Int) ∧
    __svm_get_syslookup_func 0 51 = some Ptr.NULL :=
  ⟨by decide, by decide, by decide,
    count_mismatch_null 0 51 (by decide) (by decide) (by decide)⟩

/-- C5: for every negative `int32_t` index and every `int32_t` count, equal to
the table's true length or not, the accessor returns `NULL`. -/
theorem negative_index_null (i N : Int) (hi : isInt32 i) (hn : isInt32 N) (hneg : i < 0) :
    __svm_get_syslookup_func i N = some Ptr.NULL :=
  get_null_of_guard i N ((guard_iff i N hi hn).mpr (Or.inr (Or.inl hneg)))

/-- Witness for C5 at index -1 with the true length 52 as count. -/
theorem negative_index_null_witness :
    isInt32 (-1) ∧ isInt32 52 ∧ (-1 : Int) < 0 ∧
    __svm_get_syslookup_func (-1) 52 = some Ptr.NULL :=
  ⟨by decide, by decide, by decide,
    negative_index_null (-1) 52 (by decide) (by decide) (by decide)⟩

/-- C6: for every `int32_t` index greater than or equal to the table's true
length and every `int32_t` count, the accessor returns `NULL`. -/
theorem index_too_large_null (i N : Int) (hi : isInt32 i) (hn : isInt32 N)
    (hge : i ≥ (_syslookup_funcs.length : Int)) :
    __svm_get_syslookup_func i N = some Ptr.NULL :=
  get_null_of_guard i N ((guard_iff i N hi hn).mpr (Or.inr (Or.inr hge)))

/-- Witness for C6 at index 52, the first index past the table, with count 52. -/
theorem index_too_large_null_witness :
    isInt32 52 ∧ isInt32 52 ∧ (52 : Int) ≥ (_syslookup_funcs.length : Int) ∧
    __svm_get_syslookup_func 52 52 = some Ptr.NULL :=
  ⟨by decide, by decide, by decide,
    index_too_large_null 52 52 (by decide) (by decide) (by decide)⟩

/-! ## The concrete table -/

/-- C7, as stated, fails: neither the table's length nor `N_SYSLOOKUP_FUNCS`
is 53. -/
theorem table_length_ne_53 :
    ¬ (_syslookup_funcs.length = 53 ∧ N_SYSLOOKUP_FUNCS = 53) := by
  decide

/-- C7, amended: the table `_syslookup_funcs` has true length 52, matching its
52 enumerated entries, and `N_SYSLOOKUP_FUNCS` is 52. -/
theorem table_length_eq_52 :
    _syslookup_funcs.length = 52 ∧ N_SYSLOOKUP_FUNCS = 52 := by
  decide

/-- C8, as stated, fails: with the count 53 the accessor returns neither the
first entry at index 0 nor the last entry at index 52; both calls return
`NULL`. -/
theorem first_last_with_53_fails :
    ¬ (__svm_get_syslookup_func 0 53 = some (addr_of Sym.fprintf) ∧
        __svm_get_syslookup_func 52 53 = some (addr_of Sym.gmtime)) ∧
    __svm_get_syslookup_func 0 53 = some Ptr.NULL ∧
    __svm_get_syslookup_func 52 53 = some Ptr.NULL := by
  decide

/-- C8, amended: `fprintf` is the first and `gmtime` the last listed entry of
the table, `__svm_get_syslookup_func(0, 52)` returns the address of `fprintf`
and `__svm_get_syslookup_func(51, 52)` returns the address of `gmtime`. -/
theorem first_last_with_52 :
    _syslookup_funcs.head? = some (addr_of Sym.fprintf) ∧
    _syslookup_funcs.getLast? = some (addr_of Sym.gmtime) ∧
    __svm_get_syslookup_func 0 52 = some (addr_of Sym.fprintf) ∧
    __svm_get_syslookup_func 51 52 = some (addr_of Sym.gmtime) := by
  decide

/-- C9: the calls `__svm_get_syslookup_func(53, 53)`,
`__svm_get_syslookup_func(0, 54)` and `__svm_get_syslookup_func(-1, 53)` each
return `NULL`. -/
theorem scenario_null_calls :
    __svm_get_syslookup_func 53 53 = some Ptr.NULL ∧
    __svm_get_syslookup_func 0 54 = some Ptr.NULL ∧
    __svm_get_syslookup_func (-1) 53 = some Ptr.NULL := by
  decide

/-- C10: with the table's true length `N` as expected count, the results of
`__svm_get_syslookup_func(i, N)` for `i = 0, 1, ..., N-1` are the table
`_syslookup_funcs` itself, entry for entry and in the same order, and every
table entry is returned for some index in that range. -/
theorem enumerate_retrieves_table :
    (List.range _syslookup_funcs.length).map
        (fun k : Nat => __svm_get_syslookup_func (k : Int) (_syslookup_funcs.length : Int))
      = _syslookup_funcs.map some ∧
    ∀ p ∈ _syslookup_funcs, ∃ i : Int, 0 ≤ i ∧ i < (_syslookup_funcs.length : Int) ∧
      __svm_get_syslookup_func i (_syslookup_funcs.length : Int) = some p := by
  constructor
  · apply List.ext_getElem
    · simp
    · intro k h1 h2
      have hk : k < _syslookup_funcs.length := by simpa using h1
      obtain ⟨hb, hget⟩ := get_of_valid (k : Int) (by omega) (by omega)
      simp only [List.getElem_map, List.getElem_range]
      rw [hget]
      simp
  · intro p hp
    obtain ⟨k, hk, rfl⟩ := List.getElem_of_mem hp
    obtain ⟨hb, hget⟩ := get_of_valid (k : Int) (by omega) (by omega)
    refine ⟨(k : Int), by omega, by omega, ?_⟩
    rw [hget]
    simp

/-! ## Safety, determinism and the shape of the guard -/

/-- The array read of the embedding is `none` exactly for an index outside the array. -/
theorem array_read_eq_none_iff (a : List Ptr) (i : Int) :
    array_read a i = none ↔ (i < 0 ∨ (a.length : Int) ≤ i) := by
  unfold array_read
  by_cases hneg : i < 0
  · simp [hneg]
  · rw [if_neg hneg]
    rw [List.getElem?_eq_none_iff]
    omega

/-- On `int32_t` arguments a call either fails the guard of line 94, the count
being wrong or the index outside the table, and returns `NULL`, or it has the
true length as count and a valid index and returns the entry at that index. -/
theorem get_cases (i n_expected : Int) (hi : isInt32 i) (hn : isInt32 n_expected) :
    ((n_expected ≠ (_syslookup_funcs.length : Int) ∨ i < 0 ∨
        i ≥ (_syslookup_funcs.length : Int)) ∧
      __svm_get_syslookup_func i n_expected = some Ptr.NULL) ∨
    (n_expected = (_syslookup_funcs.length : Int) ∧ 0 ≤ i ∧
      i < (_syslookup_funcs.length : Int) ∧
      ∃ h : i.toNat < _syslookup_funcs.length,
        __svm_get_syslookup_func i n_expected
          = some (_syslookup_funcs.get ⟨i.toNat, h⟩)) := by
  by_cases hm : n_expected ≠ (_syslookup_funcs.length : Int) ∨ i < 0 ∨
      i ≥ (_syslookup_funcs.length : Int)
  · left
    exact ⟨hm, get_null_of_guard i n_expected ((guard_iff i n_expected hi hn).mpr hm)⟩
  · right
    have hn_eq : n_expected = (_syslookup_funcs.length : Int) := by
      by_contra hne
      exact hm (Or.inl hne)
    have h0 : 0 ≤ i := by
      by_contra hneg
      exact hm (Or.inr (Or.inl (by omega)))
    have hlt : i < (_syslookup_funcs.length : Int) := by
      by_contra hge
      exact hm (Or.inr (Or.inr (by omega)))
    refine ⟨hn_eq, h0, hlt, ?_⟩
    rw [hn_eq]
    exact get_of_valid i h0 hlt

/-- C11: the accessor never faults. For `int32_t` arguments, whenever the
guard of line 94 is passed, so that the read `_syslookup_funcs[i]` is reached,
`i` is a valid index of the table and the read does not take its out-of-range
branch; hence every call returns a pointer. -/
theorem get_syslookup_func_never_faults (i n_expected : Int)
    (hi : isInt32 i) (hn : isInt32 n_expected) :
    (¬ (to_size_t n_expected ≠ N_SYSLOOKUP_FUNCS ∨ i < 0 ∨
          to_size_t i ≥ N_SYSLOOKUP_FUNCS) →
      0 ≤ i ∧ i < (_syslookup_funcs.length : Int) ∧
        array_read _syslookup_funcs i ≠ none) ∧
    __svm_get_syslookup_func i n_expected ≠ none := by
  constructor
  · intro hg
    rw [guard_iff i n_expected hi hn] at hg
    have h0 : 0 ≤ i := by
      by_contra hneg
      exact hg (Or.inr (Or.inl (by omega)))
    have hlt : i < (_syslookup_funcs.length : Int) := by
      by_contra hge
      exact hg (Or.inr (Or.inr (by omega)))
    refine ⟨h0, hlt, ?_⟩
    rw [Ne, array_read_eq_none_iff]
    omega
  · rcases get_cases i n_expected hi hn with ⟨_, hnull⟩ | ⟨_, _, _, _, hget⟩
    · rw [hnull]; simp
    · rw [hget]; simp

/-- Witness for C11 at index 51, the last valid one, with count 52. -/
theorem get_syslookup_func_never_faults_witness :
    isInt32 51 ∧ isInt32 52 ∧
    (¬ (to_size_t 52 ≠ N_SYSLOOKUP_FUNCS ∨ (51 : Int) < 0 ∨
          to_size_t 51 ≥ N_SYSLOOKUP_FUNCS) →
      (0 : Int) ≤ 51 ∧ (51 : Int) < (_syslookup_funcs.length : Int) ∧
        array_read _syslookup_funcs 51 ≠ none) ∧
    __svm_get_syslookup_func 51 52 ≠ none :=
  ⟨by decide, by decide, get_syslookup_func_never_faults 51 52 (by decide) (by decide)⟩

/-- A call of the accessor leaves the memory as it found it. -/
theorem step_mem_unchanged (m : Mem) (i n_expected : Int) :
    (__svm_get_syslookup_func_step m i n_expected).2 = m := by
  unfold __svm_get_syslookup_func_step
  split <;> rfl

/-- Any sequence of calls of the accessor leaves the memory as it found it. -/
theorem run_calls_mem_unchanged (calls : List (Int × Int)) (m : Mem) :
    run_calls m calls = m := by
  induction calls generalizing m with
  | nil => rfl
  | cons c cs ih =>
    unfold run_calls
    rw [step_mem_unchanged, ih]

/-- The result of a call is the same in two memories that hold the same array
contents, whatever else they hold. -/
theorem step_result_congr (m m2 : Mem) (i n_expected : Int)
    (h : m2.syslookup_funcs = m.syslookup_funcs) :
    (__svm_get_syslookup_func_step m2 i n_expected).1
      = (__svm_get_syslookup_func_step m i n_expected).1 := by
  unfold __svm_get_syslookup_func_step
  split
  · rfl
  · rw [h]

/-- In a memory whose array holds the initialiser, the step returns what the
accessor as a function of its arguments returns. -/
theorem step_result_eq (m : Mem) (i n_expected : Int)
    (hm : m.syslookup_funcs = _syslookup_funcs) :
    (__svm_get_syslookup_func_step m i n_expected).1
      = __svm_get_syslookup_func i n_expected := by
  unfold __svm_get_syslookup_func_step __svm_get_syslookup_func
  split
  · rfl
  · rw [hm]

/-- C12: the accessor is deterministic. For `int32_t` arguments and a memory
whose array holds the initialiser: a call changes no memory; a repeated call
with the same arguments, made after any number of other calls of the accessor,
returns the same result as the first; the result is the same in every memory
holding the same array, so it depends on nothing but the arguments and the
table; and it is a defined pointer, the entry at `i` when the count is the table
length and `i` is inside the table, `NULL` otherwise. -/
theorem get_syslookup_func_deterministic (m : Mem) (i n_expected : Int)
    (hi : isInt32 i) (hn : isInt32 n_expected)
    (hm : m.syslookup_funcs = _syslookup_funcs) :
    (__svm_get_syslookup_func_step m i n_expected).2 = m ∧
    (∀ calls : List (Int × Int),
      (__svm_get_syslookup_func_step
          (run_calls (__svm_get_syslookup_func_step m i n_expected).2 calls)
          i n_expected).1
        = (__svm_get_syslookup_func_step m i n_expected).1) ∧
    (∀ m2 : Mem, m2.syslookup_funcs = m.syslookup_funcs →
      (__svm_get_syslookup_func_step m2 i n_expected).1
        = (__svm_get_syslookup_func_step m i n_expected).1) ∧
    (__svm_get_syslookup_func_step m i n_expected).1 =
      some (if n_expected = (_syslookup_funcs.length : Int) ∧ 0 ≤ i ∧
              i < (_syslookup_funcs.length : Int)
            then _syslookup_funcs.getD i.toNat Ptr.NULL else Ptr.NULL) := by
  refine ⟨step_mem_unchanged m i n_expected, ?_, ?_, ?_⟩
  · intro calls
    rw [run_calls_mem_unchanged, step_mem_unchanged]
  · intro m2 h
    exact step_result_congr m m2 i n_expected h
  · rw [step_result_eq m i n_expected hm]
    rcases get_cases i n_expected hi hn with ⟨hmiss, hnull⟩ | ⟨hn_eq, h0, hlt, hb, hget⟩
    · rw [hnull, if_neg (by omega)]
    · rw [hget, if_pos ⟨hn_eq, h0, hlt⟩]
      simp [List.getElem?_eq_getElem hb]

/-- Witness for C12 at index 12 with count 52, in the initial memory whose
other objects are all zero. -/
theorem get_syslookup_func_deterministic_witness :
    isInt32 12 ∧ isInt32 52 ∧
    (initial_mem (fun _ => 0)).syslookup_funcs = _syslookup_funcs ∧
    (__svm_get_syslookup_func_step (initial_mem (fun _ => 0)) 12 52).2
      = initial_mem (fun _ => 0) ∧
    (∀ calls : List (Int × Int),
      (__svm_get_syslookup_func_step
          (run_calls (__svm_get_syslookup_func_step (initial_mem (fun _ => 0)) 12 52).2 calls)
          12 52).1
        = (__svm_get_syslookup_func_step (initial_mem (fun _ => 0)) 12 52).1) ∧
    (∀ m2 : Mem, m2.syslookup_funcs = (initial_mem (fun _ => 0)).syslookup_funcs →
      (__svm_get_syslookup_func_step m2 12 52).1
        = (__svm_get_syslookup_func_step (initial_mem (fun _ => 0)) 12 52).1) ∧
    (__svm_get_syslookup_func_step (initial_mem (fun _ => 0)) 12 52).1 =
      some (if (52 : Int) = (_syslookup_funcs.length : Int) ∧ (0 : Int) ≤ 12 ∧
              (12 : Int) < (_syslookup_funcs.length : Int)
            then _syslookup_funcs.getD (12 : Int).toNat Ptr.NULL else Ptr.NULL) :=
  ⟨by decide, by decide, rfl,
    get_syslookup_func_deterministic (initial_mem (fun _ => 0)) 12 52
      (by decide) (by decide) rfl⟩

/-- C13: the mixed signed and unsigned comparisons of the guard are faithful.
`N_SYSLOOKUP_FUNCS` and the converted operands are 64-bit unsigned values; for
every `int32_t` count the converted count equals `N_SYSLOOKUP_FUNCS` exactly
when the count equals the table length as an integer, so no negative count
wraps onto the length; and for every non-negative `int32_t` index the unsigned
test `i >= N_SYSLOOKUP_FUNCS` agrees with the comparison of integers. -/
theorem guard_comparisons_faithful (i n_expected : Int)
    (hi : isInt32 i) (hn : isInt32 n_expected) (h0 : 0 ≤ i) :
    (N_SYSLOOKUP_FUNCS < 2 ^ SIZE_BITS ∧ to_size_t n_expected < 2 ^ SIZE_BITS ∧
      to_size_t i < 2 ^ SIZE_BITS) ∧
    (to_size_t n_expected = N_SYSLOOKUP_FUNCS ↔
      n_expected = (_syslookup_funcs.length : Int)) ∧
    (n_expected < 0 → to_size_t n_expected ≠ N_SYSLOOKUP_FUNCS) ∧
    (to_size_t i ≥ N_SYSLOOKUP_FUNCS ↔ i ≥ (_syslookup_funcs.length : Int)) := by
  have hN : N_SYSLOOKUP_FUNCS = 52 := by
    rw [N_SYSLOOKUP_FUNCS_eq_length, syslookup_funcs_length]
  have hlen := syslookup_funcs_length
  have ei := to_size_t_of_nonneg i h0 hi
  have hi_hi : i < 2147483648 := by
    have := hi.2
    norm_num at this
    exact this
  have hn_hi : n_expected < 2147483648 := by
    have := hn.2
    norm_num at this
    exact this
  have hpow : (2 : Nat) ^ SIZE_BITS = 18446744073709551616 := by
    unfold SIZE_BITS
    norm_num
  have hn_lt : to_size_t n_expected < 2 ^ SIZE_BITS := by
    rw [hpow]
    unfold to_size_t SIZE_BITS
    norm_num
    omega
  have hcount : to_size_t n_expected = N_SYSLOOKUP_FUNCS ↔
      n_expected = (_syslookup_funcs.length : Int) := by
    rw [hN, hlen]
    rcases Int.lt_or_le n_expected 0 with hneg | hpos
    · have e := to_size_t_of_neg n_expected hneg hn
      constructor
      · intro h; omega
      · intro h; push_cast at h; omega
    · have e := to_size_t_of_nonneg n_expected hpos hn
      rw [e]
      push_cast
      omega
  refine ⟨⟨?_, hn_lt, ?_⟩, hcount, ?_, ?_⟩
  · rw [hN, hpow]; omega
  · rw [ei, hpow]; omega
  · intro hneg heq
    have := hcount.mp heq
    omega
  · rw [hN, hlen, ei]
    push_cast
    omega

/-- Witness for C13 at index 60 with the negative count -1. -/
theorem guard_comparisons_faithful_witness :
    isInt32 60 ∧ isInt32 (-1) ∧ (0 : Int) ≤ 60 ∧
    (N_SYSLOOKUP_FUNCS < 2 ^ SIZE_BITS ∧ to_size_t (-1) < 2 ^ SIZE_BITS ∧
      to_size_t 60 < 2 ^ SIZE_BITS) ∧
    (to_size_t (-1) = N_SYSLOOKUP_FUNCS ↔ (-1 : Int) = (_syslookup_funcs.length : Int)) ∧
    ((-1 : Int) < 0 → to_size_t (-1) ≠ N_SYSLOOKUP_FUNCS) ∧
    (to_size_t 60 ≥ N_SYSLOOKUP_FUNCS ↔ (60 : Int) ≥ (_syslookup_funcs.length : Int)) :=
  ⟨by decide, by decide, by decide,
    guard_comparisons_faithful 60 (-1) (by decide) (by decide) (by decide)⟩

/-- C14: `NULL` is an exact miss signal. For `int32_t` arguments, a call that
returns a non-null address has the table's true length as count and an index
`i` with `0 ≤ i` below that length; equivalently the result is `NULL` if and
only if the count differs from the length or the index is out of range. -/
theorem null_is_exact_miss (i n_expected : Int)
    (hi : isInt32 i) (hn : isInt32 n_expected) :
    (∀ p, __svm_get_syslookup_func i n_expected = some p → p ≠ Ptr.NULL →
      n_expected = (_syslookup_funcs.length : Int) ∧ 0 ≤ i ∧
        i < (_syslookup_funcs.length : Int)) ∧
    (__svm_get_syslookup_func i n_expected = some Ptr.NULL ↔
      (n_expected ≠ (_syslookup_funcs.length : Int) ∨ i < 0 ∨
        i ≥ (_syslookup_funcs.length : Int))) := by
  rcases get_cases i n_expected hi hn with ⟨hm, hnull⟩ | ⟨hn_eq, h0, hlt, hb, hget⟩
  · constructor
    · intro p hp hne
      rw [hnull] at hp
      exact absurd (Option.some.inj hp).symm hne
    · exact ⟨fun _ => hm, fun _ => hnull⟩
  · constructor
    · intro _ _ _
      exact ⟨hn_eq, h0, hlt⟩
    · constructor
      · intro hnull
        rw [hget] at hnull
        exact absurd (Option.some.inj hnull)
          (syslookup_funcs_nonnull _ (List.get_mem _ _ _))
      · intro hm
        omega

/-- Witness for C14 at index 20 with count 52. -/
theorem null_is_exact_miss_witness :
    isInt32 20 ∧ isInt32 52 ∧
    (∀ p, __svm_get_syslookup_func 20 52 = some p → p ≠ Ptr.NULL →
      (52 : Int) = (_syslookup_funcs.length : Int) ∧ (0 : Int) ≤ 20 ∧
        (20 : Int) < (_syslookup_funcs.length : Int)) ∧
    (__svm_get_syslookup_func 20 52 = some Ptr.NULL ↔
      ((52 : Int) ≠ (_syslookup_funcs.length : Int) ∨ (20 : Int) < 0 ∨
        (20 : Int) ≥ (_syslookup_funcs.length : Int))) :=
  ⟨by decide, by decide, null_is_exact_miss 20 52 (by decide) (by decide)⟩

end Syslookup
